import Mathlib

/-!
Verification of the cross-domain synchronization layer of healthsim-common.

The definitions below are a shallow embedding of
`packages/core/src/healthsim/generation/cross_domain_sync.py`
(identity correlation, event triggers, validation), of
`packages/membersim/src/membersim/generation/executor.py` (weighted choice),
and — where the journey engine source is absent — a model built from the
design document.  Python dictionaries are modelled as insertion-ordered
association lists, Python floats as rationals, `datetime.date` values as
their ISO strings, and Python truthiness of optional strings explicitly
(`None` and `""` are falsy).
-/

set_option autoImplicit false

namespace HealthSim

/-- Python `dict.get`: first binding of the key in an insertion-ordered
association list. -/
def dictGet {α : Type} (l : List (String × α)) (k : String) : Option α :=
  match l with
  | [] => none
  | (k1, v) :: rest => if k1 = k then some v else dictGet rest k

/-- Python `d[k] = v`: replace the binding in place if the key exists,
otherwise append. -/
def dictInsert {α : Type} (l : List (String × α)) (k : String) (v : α) :
    List (String × α) :=
  match l with
  | [] => [(k, v)]
  | (k1, v1) :: rest =>
      if k1 = k then (k, v) :: rest else (k1, v1) :: dictInsert rest k v

theorem dictGet_dictInsert_self {α : Type} (l : List (String × α)) (k : String) (v : α) :
    dictGet (dictInsert l k v) k = some v := by
  induction l with
  | nil => simp [dictGet, dictInsert]
  | cons hd tl ih =>
      by_cases h : hd.1 = k
      · simp [dictGet, dictInsert, h]
      · simpa [dictGet, dictInsert, h] using ih

theorem dictGet_dictInsert_ne {α : Type} (l : List (String × α)) (k k1 : String) (v : α)
    (h : k ≠ k1) : dictGet (dictInsert l k v) k1 = dictGet l k1 := by
  induction l with
  | nil => simp [dictGet, dictInsert, h]
  | cons hd tl ih =>
      by_cases h1 : hd.1 = k
      · simp [dictGet, dictInsert, h1, h]
      · simp [dictGet, dictInsert, h1]
        by_cases h2 : hd.1 = k1 <;> simp [h2, ih]

theorem dictGet_mem {α : Type} {l : List (String × α)} {k : String} {v : α}
    (h : dictGet l k = some v) : (k, v) ∈ l := by
  induction l with
  | nil => simp [dictGet] at h
  | cons hd tl ih =>
      by_cases h1 : hd.1 = k
      · simp [dictGet, h1] at h
        subst h1
        have h2 : (hd.1, v) = hd := by cases hd; simp_all
        rw [h2]
        exact List.mem_cons_self _ _
      · simp [dictGet, h1] at h
        exact List.mem_cons_of_mem _ (ih h)

/-- Python truthiness of an optional string: `None` and `""` are falsy. -/
def pyTruthy (s : Option String) : Bool :=
  match s with
  | none => false
  | some s1 => if s1 = "" then false else true

/-- `ProductType(str, Enum)` from `cross_domain_sync.py`. -/
inductive ProductType
  | patientsim | membersim | rxmembersim | trialsim | networksim | populationsim
deriving DecidableEq, Repr

/-- The `.value` string of each `ProductType` member. -/
def ProductType.value : ProductType → String
  | .patientsim => "patientsim"
  | .membersim => "membersim"
  | .rxmembersim => "rxmembersim"
  | .trialsim => "trialsim"
  | .networksim => "networksim"
  | .populationsim => "populationsim"

/-- `TriggerType(str, Enum)` from `cross_domain_sync.py`. -/
inductive TriggerType
  | encounter_to_claim | prescription_to_fill | admission_to_facility_claim
  | lab_order_to_claim_line | trial_visit_to_encounter
deriving DecidableEq, Repr

/-- The `.value` string of each `TriggerType` member; message interpolation
`f"...{trigger_type}"` is modelled as inserting this string (the rendering
of a `str`-mixin enum member; the surrounding message text is what makes the
three failure messages distinct, whatever the member rendering). -/
def TriggerType.value : TriggerType → String
  | .encounter_to_claim => "encounter_to_claim"
  | .prescription_to_fill => "prescription_to_fill"
  | .admission_to_facility_claim => "admission_to_facility_claim"
  | .lab_order_to_claim_line => "lab_order_to_claim_line"
  | .trial_visit_to_encounter => "trial_visit_to_encounter"

/-- `PersonIdentity` (pydantic model).  `date_of_birth` is modelled as the
ISO string of the date (the code only ever compares `isoformat()` output). -/
structure PersonIdentity where
  correlation_id : String
  ssn_hash : Option String := none
  date_of_birth : Option String := none
  gender : Option String := none
  first_name : Option String := none
  last_name : Option String := none
  patient_id : Option String := none
  member_id : Option String := none
  rx_member_id : Option String := none
  subject_id : Option String := none
deriving DecidableEq, Repr

/-- `IdentityRegistry.__init__`: `_identities` dict plus `_product_indexes`,
one (initially empty) index dict per product. -/
structure IdentityRegistry where
  identities : List (String × PersonIdentity) := []
  indexes : ProductType → List (String × String) := fun _ => []

def IdentityRegistry.setIndex (st : IdentityRegistry) (p : ProductType)
    (l : List (String × String)) : IdentityRegistry :=
  { st with indexes := fun p1 => if p1 = p then l else st.indexes p1 }

/-- One `if identity.<field>:` indexing step of `register` (only truthy
product ids are indexed). -/
def indexIfTruthy (st : IdentityRegistry) (p : ProductType) (pid : Option String)
    (cid : String) : IdentityRegistry :=
  match pid with
  | none => st
  | some s => if s = "" then st else st.setIndex p (dictInsert (st.indexes p) s cid)

/-- `IdentityRegistry.register`: store under the identity's correlation id,
index every truthy product-specific id, return the correlation id. -/
def IdentityRegistry.register (st : IdentityRegistry) (identity : PersonIdentity) :
    IdentityRegistry × String :=
  let st1 := { st with
    identities := dictInsert st.identities identity.correlation_id identity }
  let st2 := indexIfTruthy st1 .patientsim identity.patient_id identity.correlation_id
  let st3 := indexIfTruthy st2 .membersim identity.member_id identity.correlation_id
  let st4 := indexIfTruthy st3 .rxmembersim identity.rx_member_id identity.correlation_id
  let st5 := indexIfTruthy st4 .trialsim identity.subject_id identity.correlation_id
  (st5, identity.correlation_id)

/-- `IdentityRegistry.get_by_correlation_id`. -/
def IdentityRegistry.get_by_correlation_id (st : IdentityRegistry) (cid : String) :
    Option PersonIdentity :=
  dictGet st.identities cid

/-- `IdentityRegistry.get_by_product_id`: index lookup, then
`if correlation_id:` (an empty-string correlation id is falsy and yields
`None`), then identity lookup. -/
def IdentityRegistry.get_by_product_id (st : IdentityRegistry) (p : ProductType)
    (product_id : String) : Option PersonIdentity :=
  match dictGet (st.indexes p) product_id with
  | none => none
  | some cid => if cid = "" then none else dictGet st.identities cid

/-- The product-id field written by `link_product_id`'s `if/elif` chain
(no branch exists for networksim / populationsim, so nothing is written). -/
def setProductField (p : ProductType) (product_id : String) (identity : PersonIdentity) :
    PersonIdentity :=
  match p with
  | .patientsim => { identity with patient_id := some product_id }
  | .membersim => { identity with member_id := some product_id }
  | .rxmembersim => { identity with rx_member_id := some product_id }
  | .trialsim => { identity with subject_id := some product_id }
  | .networksim => identity
  | .populationsim => identity

/-- `IdentityRegistry.link_product_id`: unknown correlation id is a soft
failure (`False`, no state change); otherwise the identity's product field is
updated in place and the index entry written unconditionally. -/
def IdentityRegistry.link_product_id (st : IdentityRegistry) (correlation_id : String)
    (p : ProductType) (product_id : String) : IdentityRegistry × Bool :=
  match dictGet st.identities correlation_id with
  | none => (st, false)
  | some identity =>
      let identity1 := setProductField p product_id identity
      let st1 := { st with
        identities := dictInsert st.identities correlation_id identity1 }
      let st2 := st1.setIndex p (dictInsert (st1.indexes p) product_id correlation_id)
      (st2, true)

/-- `IdentityRegistry.get_all` (dict values in insertion order). -/
def identityValues (st : IdentityRegistry) : List PersonIdentity :=
  st.identities.map Prod.snd

/-- The correlator dictionary passed to `find_matches` — the keys read by
`_calculate_match_score` (`.get` of a missing key is `none`). -/
structure Correlators where
  ssn_hash : Option String := none
  dob : Option String := none
  gender : Option String := none
  name : Option String := none
deriving DecidableEq, Repr

/-- SSN-hash correlator weight (highest). -/
def wSSN : ℚ := 1

/-- Date-of-birth correlator weight (high). -/
def wDOB : ℚ := 1/2

/-- Gender correlator weight (low). -/
def wGender : ℚ := 1/10

/-- Name correlator weight (medium). -/
def wName : ℚ := 3/10

/-- `f"{identity.last_name},{identity.first_name}".upper()` — a `None`
first name renders as the string `"None"`. -/
def pyIdentityName (identity : PersonIdentity) : String :=
  ((identity.last_name.getD "None") ++ "," ++ (identity.first_name.getD "None")).toUpper

/-- `IdentityRegistry._calculate_match_score`: each correlator that is truthy
on the query and present on the identity adds its weight to the running
total, and also to the matched total on exact equality; the score is
`matched / total`, or `0.0` when no correlator was counted. -/
def calculateMatchScore (identity : PersonIdentity) (c : Correlators) : ℚ :=
  let tm1 : ℚ × ℚ :=
    if pyTruthy c.ssn_hash && pyTruthy identity.ssn_hash then
      (0 + wSSN, if c.ssn_hash = identity.ssn_hash then 0 + wSSN else 0)
    else (0, 0)
  let tm2 : ℚ × ℚ :=
    if pyTruthy c.dob && identity.date_of_birth.isSome then
      (tm1.1 + wDOB, if c.dob = identity.date_of_birth then tm1.2 + wDOB else tm1.2)
    else tm1
  let tm3 : ℚ × ℚ :=
    if pyTruthy c.gender && pyTruthy identity.gender then
      (tm2.1 + wGender, if c.gender = identity.gender then tm2.2 + wGender else tm2.2)
    else tm2
  let tm4 : ℚ × ℚ :=
    if pyTruthy c.name && pyTruthy identity.last_name then
      (tm3.1 + wName,
        if c.name = some (pyIdentityName identity) then tm3.2 + wName else tm3.2)
    else tm3
  if tm4.1 = 0 then 0 else tm4.2 / tm4.1

/-- One step of Python's stable descending sort
`sorted(matches, key=lambda x: x[1], reverse=True)`. -/
def insertByScoreDesc (x : PersonIdentity × ℚ) :
    List (PersonIdentity × ℚ) → List (PersonIdentity × ℚ)
  | [] => [x]
  | y :: ys => if y.2 ≤ x.2 then x :: y :: ys else y :: insertByScoreDesc x ys

/-- Stable sort by descending score. -/
def sortByScoreDesc : List (PersonIdentity × ℚ) → List (PersonIdentity × ℚ)
  | [] => []
  | x :: xs => insertByScoreDesc x (sortByScoreDesc xs)

/-- `IdentityRegistry.find_matches`: score every stored identity, keep those
with score `>= min_confidence`, sort by descending score. -/
def IdentityRegistry.find_matches (st : IdentityRegistry) (c : Correlators)
    (min_confidence : ℚ) : List (PersonIdentity × ℚ) :=
  sortByScoreDesc ((identityValues st).filterMap (fun i =>
    let s := calculateMatchScore i c
    if min_confidence ≤ s then some (i, s) else none))

/-- The default `min_confidence` of `find_matches` (`0.8`). -/
def defaultMinConfidence : ℚ := 8/10

-- =========================================================================
-- Event triggers
-- =========================================================================

/-- `TriggerSpec` dataclass. -/
structure TriggerSpec where
  trigger_type : TriggerType
  source_product : ProductType
  target_product : ProductType
  source_event : String
  target_event : String
  field_mappings : List (String × String) := []
  delay_days : Int × Int := (0, 3)
  enabled : Bool := true
deriving DecidableEq, Repr

/-- `TriggerResult` dataclass (`generated_data` modelled as a string map). -/
structure TriggerResult where
  trigger_type : TriggerType
  source_id : String
  target_id : Option String
  success : Bool
  message : String := ""
  generated_data : List (String × String) := []
deriving DecidableEq, Repr

/-- A `TriggerHandler`'s `handle(source_event, trigger_spec, context)`. -/
def TriggerHandler : Type :=
  List (String × String) → TriggerSpec → List (String × String) → TriggerResult

/-- `TriggerRegistry`: independent spec map and handler map keyed by
trigger type. -/
structure TriggerRegistry where
  specs : TriggerType → Option TriggerSpec := fun _ => none
  handlers : TriggerType → Option TriggerHandler := fun _ => none

/-- `source_event.get("id", "unknown")`. -/
def sourceEventId (source_event : List (String × String)) : String :=
  (dictGet source_event "id").getD "unknown"

/-- Failure message when no spec is registered. -/
def noSpecMsg (t : TriggerType) : String := "No spec registered for " ++ t.value

/-- Failure message when the registered spec is disabled. -/
def disabledMsg (t : TriggerType) : String := "Trigger " ++ t.value ++ " is disabled"

/-- Failure message when no handler is registered. -/
def noHandlerMsg (t : TriggerType) : String := "No handler registered for " ++ t.value

/-- `TriggerRegistry.fire`: resolve spec, then enabled flag, then handler,
returning a structured failure result at each missing stage; on success the
handler runs with `context or {}`. -/
def TriggerRegistry.fire (reg : TriggerRegistry) (trigger_type : TriggerType)
    (source_event : List (String × String))
    (context : Option (List (String × String))) : TriggerResult :=
  match reg.specs trigger_type with
  | none =>
      { trigger_type := trigger_type, source_id := sourceEventId source_event,
        target_id := none, success := false, message := noSpecMsg trigger_type }
  | some spec =>
      if !spec.enabled then
        { trigger_type := trigger_type, source_id := sourceEventId source_event,
          target_id := none, success := false, message := disabledMsg trigger_type }
      else
        match reg.handlers trigger_type with
        | none =>
            { trigger_type := trigger_type, source_id := sourceEventId source_event,
              target_id := none, success := false, message := noHandlerMsg trigger_type }
        | some handler => handler source_event spec (context.getD [])

-- =========================================================================
-- Cross-domain sync coordinator
-- =========================================================================

/-- Model of the Python standard library PRNG state transition.  Python's
Mersenne Twister is replaced by a 64-bit linear congruential step: the
properties proved here depend only on the draws being a deterministic
function of the seeded state (true of `random.Random`), not on the
distribution of the draws. -/
def pyRandNext (s : Nat) : Nat :=
  (s * 6364136223846793005 + 1442695040888963407) % (2 ^ 64)

/-- `rng.randint(a, b)` (inclusive bounds): one draw plus the advanced
state, modelled on the LCG stream. -/
def pyRandint (s : Nat) (a b : Nat) : Nat × Nat :=
  let s1 := pyRandNext s
  (a + s1 % (b - a + 1), s1)

/-- `random.Random(seed)` initial state: a concrete integer seed determines
the state; `random.Random(None)` seeds from operating-system entropy,
modelled by the explicit `entropy` argument. -/
def pySeedInit (seed : Option Int) (entropy : Nat) : Nat :=
  match seed with
  | some s => pyRandNext (2 * s.natAbs + (if s < 0 then 1 else 0))
  | none => entropy

/-- Python `seed or self.seed`: `None` and `0` are falsy and fall through
to `self.seed`. -/
def pyOrSeed (seed selfSeed : Option Int) : Option Int :=
  match seed with
  | some s => if s = 0 then selfSeed else some s
  | none => selfSeed

/-- The demographics dictionary keys read by `create_linked_identity`
(`date_of_birth` modelled as an ISO string). -/
structure Demographics where
  ssn : Option String := none
  date_of_birth : Option String := none
  gender : Option String := none
  first_name : Option String := none
  last_name : Option String := none
deriving DecidableEq, Repr

/-- Model of `hashlib.sha256(s.encode()).hexdigest()[:16]`: treated as an
uninterpreted injective digest (its value content is irrelevant to the
properties proved about it). -/
def sha256Hex16 (s : String) : String := "sha256-" ++ s

/-- `str(uuid4())`: modelled as a stream of distinct fresh strings indexed
by a per-coordinator counter. -/
def uuidStr (n : Nat) : String := "uuid-" ++ toString n

/-- The `CrossDomainSync` coordinator state used by the claims: its
constructor seed, its identity registry, and the uuid freshness counter. -/
structure CrossDomainSync where
  seed : Option Int := none
  identity_registry : IdentityRegistry := {}
  uuidCounter : Nat := 0

/-- `CrossDomainSync.create_linked_identity`: seed an RNG from
`seed or self.seed`, hash a truthy SSN, build the identity, then draw one
8-digit id per requested product in the fixed order patient, member,
rx-member, subject, and register the identity. -/
def CrossDomainSync.create_linked_identity (sync : CrossDomainSync)
    (products : List ProductType) (demographics : Demographics)
    (seed : Option Int) (entropy : Nat) : CrossDomainSync × PersonIdentity :=
  let rng0 := pySeedInit (pyOrSeed seed sync.seed) entropy
  let correlation_id := uuidStr sync.uuidCounter
  let ssn_hash : Option String :=
    match demographics.ssn with
    | none => none
    | some s => if s = "" then none else some (sha256Hex16 s)
  let identity0 : PersonIdentity :=
    { correlation_id := correlation_id, ssn_hash := ssn_hash,
      date_of_birth := demographics.date_of_birth,
      gender := demographics.gender,
      first_name := demographics.first_name,
      last_name := demographics.last_name }
  let step1 : PersonIdentity × Nat :=
    if ProductType.patientsim ∈ products then
      let d := pyRandint rng0 10000000 99999999
      ({ identity0 with patient_id := some ("PAT-" ++ toString d.1) }, d.2)
    else (identity0, rng0)
  let step2 : PersonIdentity × Nat :=
    if ProductType.membersim ∈ products then
      let d := pyRandint step1.2 10000000 99999999
      ({ step1.1 with member_id := some ("MEM-" ++ toString d.1) }, d.2)
    else step1
  let step3 : PersonIdentity × Nat :=
    if ProductType.rxmembersim ∈ products then
      let d := pyRandint step2.2 10000000 99999999
      ({ step2.1 with rx_member_id := some ("RXM-" ++ toString d.1) }, d.2)
    else step2
  let step4 : PersonIdentity × Nat :=
    if ProductType.trialsim ∈ products then
      let d := pyRandint step3.2 10000000 99999999
      ({ step3.1 with subject_id := some ("SUBJ-" ++ toString d.1) }, d.2)
    else step3
  let reg1 := (sync.identity_registry.register step4.1).1
  ({ sync with identity_registry := reg1, uuidCounter := sync.uuidCounter + 1 },
    step4.1)

/-- An entity passed to `validate`, modelled as a Python dict with string
values (`_get_entity_id` applies `str()` to whatever it extracts). -/
def Entity : Type := List (String × String)

/-- The per-product id field preference lists of `_get_entity_id`
(`id_fields.get(product, ["id"])`). -/
def idFields : ProductType → List String
  | .patientsim => ["patient_id", "id"]
  | .membersim => ["member_id", "id"]
  | .rxmembersim => ["rx_member_id", "member_id", "id"]
  | .trialsim => ["subject_id", "id"]
  | .networksim => ["id"]
  | .populationsim => ["id"]

/-- First field of the preference list present on the entity. -/
def lookupFirstField (entity : Entity) : List String → Option String
  | [] => none
  | f :: fs =>
      match dictGet entity f with
      | some v => some v
      | none => lookupFirstField entity fs

/-- `CrossDomainSync._get_entity_id` for dict entities. -/
def get_entity_id (entity : Entity) (p : ProductType) : Option String :=
  lookupFirstField entity (idFields p)

/-- The orphan warning string
`f"Entity {entity_id} in {product.value} " "not in identity registry"`. -/
def orphanWarning (entity_id : String) (p : ProductType) : String :=
  "Entity " ++ entity_id ++ " in " ++ p.value ++ " not in identity registry"

/-- `CrossDomainSync.validate` (reading the coordinator's identity
registry): every entity with a truthy extracted id that is missing from the
registry adds a warning; nothing is ever appended to `errors`, and
`passed = (len(errors) == 0)`. -/
def validate (st : IdentityRegistry) (entities : List (ProductType × List Entity)) :
    Bool × List String × List String :=
  let warnings := entities.flatMap (fun pe =>
    pe.2.filterMap (fun entity =>
      match get_entity_id entity pe.1 with
      | none => none
      | some entity_id =>
          if entity_id = "" then none
          else
            match IdentityRegistry.get_by_product_id st pe.1 entity_id with
            | some _ => none
            | none => some (orphanWarning entity_id pe.1)))
  let errors : List String := []
  (errors.isEmpty, errors, warnings)

-- =========================================================================
-- MemberProfileExecutor._weighted_choice
-- =========================================================================

/-- `sum(w for _, w in options)`. -/
def weightedChoiceTotal (options : List (String × ℚ)) : ℚ :=
  (options.map Prod.snd).sum

/-- The cumulative-weight scan of `_weighted_choice`; `none` means the loop
fell through without returning. -/
def weightedChoiceLoop (r : ℚ) (cumulative : ℚ) :
    List (String × ℚ) → Option String
  | [] => none
  | vw :: rest =>
      if r ≤ cumulative + vw.2 then some vw.1
      else weightedChoiceLoop r (cumulative + vw.2) rest

/-- `MemberProfileExecutor._weighted_choice` with `r0` standing for the
`rng.random()` draw in `[0, 1)`: scan the cumulative weights, falling back
to `options[-1][0]`; on an empty list that subscript raises `IndexError`,
modelled as `none`.  No validation of the weights is performed and no
`ConfigurationError` exists anywhere in the code. -/
def weighted_choice (options : List (String × ℚ)) (r0 : ℚ) : Option String :=
  let total := weightedChoiceTotal options
  let r := r0 * total
  match weightedChoiceLoop r 0 options with
  | some v => some v
  | none => options.getLast?.map Prod.fst

-- =========================================================================
-- Journey engine / Timeline Builder
-- =========================================================================

/-- Modelled from the spec: the `healthsim.generation.journey_engine`
module (Timeline Builder, Seed Hierarchy, delay sampling) is imported by
the journey handlers but its source is not part of this tree, so the
builder is reconstructed from the design document: a `DelaySpec` is a
fixed day offset or a sampled window (uniform or clamped normal). -/
inductive DelaySpec
  | fixedDays (days : Nat)
  | uniformWindow (daysMin daysMax : Nat)
  | normalWindow (daysMin daysMax : Nat)
deriving DecidableEq, Repr

/-- Modelled from the spec: an `EventDefinition` — id, name, event type,
product, delay spec, optional dependency, optional condition.  The
condition grammar is left open by the design document; it is modelled as
an attribute-equality test against the entity. -/
structure EventDefinition where
  id : String
  name : String
  event_type : String
  product : ProductType
  delay : DelaySpec
  depends_on : Option String := none
  condition : Option (String × String) := none
deriving DecidableEq, Repr

/-- Modelled from the spec: a `JourneySpecification`. -/
structure JourneySpecification where
  id : String
  name : String
  events : List EventDefinition
deriving DecidableEq, Repr

/-- Modelled from the spec: the entity a timeline is built for. -/
structure JourneyEntity where
  entity_id : String
  entity_type : String := "patient"
  attrs : List (String × String) := []
deriving DecidableEq, Repr

/-- Modelled from the spec: `TimelineEvent` status values. -/
inductive EventStatus
  | pending | executed | skipped | failed
deriving DecidableEq, Repr

/-- Modelled from the spec: a dated `TimelineEvent` (dates as day
ordinals). -/
structure TimelineEvent where
  event_id : String
  event_type : String
  date : Nat
  status : EventStatus
deriving DecidableEq, Repr

/-- Modelled from the spec: a built `Timeline`. -/
structure Timeline where
  entity_id : String
  entity_type : String
  journey_id : String
  start_date : Nat
  events : List TimelineEvent
deriving DecidableEq, Repr

/-- Modelled from the spec: build-time errors — a cyclic dependency graph
or a dangling dependency reference. -/
inductive BuildError
  | cycleError (ids : List String)
  | missingDependencyError (id : String)
deriving DecidableEq, Repr

/-- A deterministic string hash used by the seed hierarchy model. -/
def strHash (s : String) : Nat :=
  s.data.foldl (fun h c => h * 31 + c.toNat) 7

/-- Modelled from the spec: the Seed Hierarchy — a stable stream value for
any (root seed, entity, purpose) triple, independent of draw order
elsewhere. -/
def deriveStream (rootSeed : Nat) (entityId : String) (purpose : String) : Nat :=
  pyRandNext (rootSeed + 31 * strHash entityId + 131 * strHash purpose)

/-- The definitions whose dependency is already resolved. -/
def topoReady (done : List String) (defs : List EventDefinition) :
    List EventDefinition × List EventDefinition :=
  defs.partition (fun d =>
    match d.depends_on with
    | none => true
    | some dep => done.contains dep)

/-- Modelled from the spec: topological ordering of the event definitions
(no-dependency first), failing with a cycle error when no progress is
possible. -/
def topoSort (fuel : Nat) (defs : List EventDefinition) (done : List String) :
    Except BuildError (List EventDefinition) :=
  match fuel with
  | 0 =>
      if defs.isEmpty then .ok []
      else .error (.cycleError (defs.map (fun d => d.id)))
  | fuel1 + 1 =>
      if defs.isEmpty then .ok []
      else
        let rb := topoReady done defs
        if rb.1.isEmpty then .error (.cycleError (rb.2.map (fun d => d.id)))
        else
          match topoSort fuel1 rb.2 (done ++ rb.1.map (fun d => d.id)) with
          | .error e => .error e
          | .ok rest => .ok (rb.1 ++ rest)

/-- Modelled from the spec: one delay resolution — a fixed offset, or one
seeded draw from the declared window, rounded to whole days. -/
def resolveDelay (rootSeed : Nat) (entity : JourneyEntity) (d : EventDefinition) : Nat :=
  match d.delay with
  | .fixedDays n => n
  | .uniformWindow a b =>
      a + deriveStream rootSeed entity.entity_id d.id % (b - a + 1)
  | .normalWindow a b =>
      let v1 := deriveStream rootSeed entity.entity_id (d.id ++ "/n1") % (b - a + 1)
      let v2 := deriveStream rootSeed entity.entity_id (d.id ++ "/n2") % (b - a + 1)
      a + (v1 + v2) / 2

/-- Modelled from the spec: resolve dates and build-time skips over a
topologically ordered definition list.  A skipped definition stays
resolvable as a dependency anchor; skipping propagates to dependents. -/
def resolveEvents (rootSeed : Nat) (entity : JourneyEntity) (start : Nat) :
    List EventDefinition → List (String × Nat) → List String →
    List (String × Nat) × List String
  | [], resolved, skipped => (resolved, skipped)
  | d :: rest, resolved, skipped =>
      let base :=
        match d.depends_on with
        | none => start
        | some dep => (dictGet resolved dep).getD start
      let dateR := base + resolveDelay rootSeed entity d
      let condFalse : Bool :=
        match d.condition with
        | none => false
        | some kv => !(dictGet entity.attrs kv.1 == some kv.2)
      let depSkipped : Bool :=
        match d.depends_on with
        | none => false
        | some dep => skipped.contains dep
      let skipped1 := if condFalse || depSkipped then d.id :: skipped else skipped
      resolveEvents rootSeed entity start rest (dictInsert resolved d.id dateR) skipped1

/-- One step of the stable ascending sort by resolved date (ties keep
original definition order). -/
def insertByDateAsc (x : TimelineEvent) : List TimelineEvent → List TimelineEvent
  | [] => [x]
  | y :: ys => if x.date ≤ y.date then x :: y :: ys else y :: insertByDateAsc x ys

/-- Stable sort of timeline events by ascending date. -/
def sortByDateAsc : List TimelineEvent → List TimelineEvent
  | [] => []
  | x :: xs => insertByDateAsc x (sortByDateAsc xs)

/-- Modelled from the spec: the Timeline Builder — validate the dependency
graph, topologically order the definitions, resolve every delay through the
entity's seeded stream, drop build-time skips, and emit the events sorted
by date with ties in original definition order. -/
def build_timeline (rootSeed : Nat) (journey : JourneySpecification)
    (entity : JourneyEntity) (start_date : Nat) : Except BuildError Timeline :=
  let ids := journey.events.map (fun d => d.id)
  match journey.events.find? (fun d =>
      match d.depends_on with
      | none => false
      | some dep => !(ids.contains dep)) with
  | some d => .error (.missingDependencyError ((d.depends_on).getD d.id))
  | none =>
      match topoSort (journey.events.length + 1) journey.events [] with
      | .error e => .error e
      | .ok ordered =>
          let rs := resolveEvents rootSeed entity start_date ordered [] []
          let kept := journey.events.filter (fun d => !(rs.2.contains d.id))
          let evs := kept.map (fun d =>
            { event_id := d.id, event_type := d.event_type,
              date := (dictGet rs.1 d.id).getD start_date,
              status := EventStatus.pending : TimelineEvent })
          .ok { entity_id := entity.entity_id, entity_type := entity.entity_type,
                journey_id := journey.id, start_date := start_date,
                events := sortByDateAsc evs }

-- =========================================================================
-- Specification-side definitions (transcribed from the specification's
-- wording, for comparison against the code-derived definitions above)
-- =========================================================================

/-- Spec wording: the total weight accumulates the fixed weight of every
correlator present on both the query and the stored identity; an absent
correlator contributes nothing. -/
def specTotalWeight (c : Correlators) (i : PersonIdentity) : ℚ :=
  (if pyTruthy c.ssn_hash && pyTruthy i.ssn_hash then wSSN else 0)
  + (if pyTruthy c.dob && i.date_of_birth.isSome then wDOB else 0)
  + (if pyTruthy c.gender && pyTruthy i.gender then wGender else 0)
  + (if pyTruthy c.name && pyTruthy i.last_name then wName else 0)

/-- Spec wording: the matched weight accumulates the fixed weight of every
correlator present on both sides that agrees exactly; a mismatch adds
nothing, and an absent correlator is never counted as a mismatch. -/
def specMatchedWeight (c : Correlators) (i : PersonIdentity) : ℚ :=
  (if pyTruthy c.ssn_hash && pyTruthy i.ssn_hash then
    (if c.ssn_hash = i.ssn_hash then wSSN else 0) else 0)
  + (if pyTruthy c.dob && i.date_of_birth.isSome then
      (if c.dob = i.date_of_birth then wDOB else 0) else 0)
  + (if pyTruthy c.gender && pyTruthy i.gender then
      (if c.gender = i.gender then wGender else 0) else 0)
  + (if pyTruthy c.name && pyTruthy i.last_name then
      (if c.name = some (pyIdentityName i) then wName else 0) else 0)

/-- Spec wording: confidence is matched weight over total weight
(`0` when nothing is present on both sides). -/
def specMatchScore (c : Correlators) (i : PersonIdentity) : ℚ :=
  if specTotalWeight c i = 0 then 0 else specMatchedWeight c i / specTotalWeight c i

/-- Spec wording: `validate` emits one warning per entity whose (truthy)
extracted id has no Identity Registry entry. -/
def specOrphanWarnings (st : IdentityRegistry)
    (entities : List (ProductType × List Entity)) : List String :=
  entities.flatMap (fun pe =>
    pe.2.filterMap (fun entity =>
      match get_entity_id entity pe.1 with
      | none => none
      | some eid =>
          if eid ≠ "" ∧ IdentityRegistry.get_by_product_id st pe.1 eid = none
          then some (orphanWarning eid pe.1) else none))

-- =========================================================================
-- Helper lemmas
-- =========================================================================

theorem identities_indexIfTruthy (st : IdentityRegistry) (p : ProductType)
    (pid : Option String) (c : String) :
    (indexIfTruthy st p pid c).identities = st.identities := by
  cases pid with
  | none => rfl
  | some s =>
      by_cases h : s = "" <;> simp [indexIfTruthy, IdentityRegistry.setIndex, h]

/-- The registry's identities dict after `register` is the dict before plus
the binding of the registered identity at its correlation id. -/
theorem identities_register (st : IdentityRegistry) (i : PersonIdentity) :
    (st.register i).1.identities = dictInsert st.identities i.correlation_id i := by
  simp [IdentityRegistry.register, identities_indexIfTruthy]

/-- The code-derived score equals the score as worded by the spec. -/
theorem calculateMatchScore_eq_spec (i : PersonIdentity) (c : Correlators) :
    calculateMatchScore i c = specMatchScore c i := by
  simp only [calculateMatchScore, specMatchScore, specTotalWeight, specMatchedWeight]
  by_cases h1 : (pyTruthy c.ssn_hash && pyTruthy i.ssn_hash) = true <;>
    by_cases h2 : (pyTruthy c.dob && i.date_of_birth.isSome) = true <;>
      by_cases h3 : (pyTruthy c.gender && pyTruthy i.gender) = true <;>
        by_cases h4 : (pyTruthy c.name && pyTruthy i.last_name) = true <;>
          simp only [h1, h2, h3, h4, Bool.not_eq_true] at * <;>
            simp [h1, h2, h3, h4, wSSN, wDOB, wGender, wName] <;>
              split_ifs <;> norm_num

theorem perm_insertByScoreDesc (x : PersonIdentity × ℚ) (l : List (PersonIdentity × ℚ)) :
    List.Perm (insertByScoreDesc x l) (x :: l) := by
  induction l with
  | nil => simp [insertByScoreDesc]
  | cons y ys ih =>
      by_cases h : y.2 ≤ x.2
      · simp [insertByScoreDesc, h]
      · simp only [insertByScoreDesc, h, if_false]
        exact (List.Perm.cons y ih).trans (List.Perm.swap x y ys)

theorem perm_sortByScoreDesc (l : List (PersonIdentity × ℚ)) :
    List.Perm (sortByScoreDesc l) l := by
  induction l with
  | nil => simp [sortByScoreDesc]
  | cons x xs ih =>
      exact (perm_insertByScoreDesc x (sortByScoreDesc xs)).trans (List.Perm.cons x ih)

theorem pairwise_insertByScoreDesc (x : PersonIdentity × ℚ)
    (l : List (PersonIdentity × ℚ))
    (h : l.Pairwise (fun a b => b.2 ≤ a.2)) :
    (insertByScoreDesc x l).Pairwise (fun a b => b.2 ≤ a.2) := by
  induction l with
  | nil => simp [insertByScoreDesc]
  | cons y ys ih =>
      rcases List.pairwise_cons.mp h with ⟨hy, hys⟩
      by_cases hc : y.2 ≤ x.2
      · simp only [insertByScoreDesc, hc, if_true]
        refine List.pairwise_cons.mpr ⟨?_, h⟩
        intro z hz
        rcases List.mem_cons.mp hz with hz1 | hz2
        · subst hz1; exact hc
        · exact le_trans (hy z hz2) hc
      · simp only [insertByScoreDesc, hc, if_false]
        refine List.pairwise_cons.mpr ⟨?_, ih hys⟩
        intro z hz
        have hz1 : z ∈ x :: ys := (perm_insertByScoreDesc x ys).mem_iff.mp hz
        rcases List.mem_cons.mp hz1 with hz2 | hz3
        · subst hz2; exact le_of_not_le hc
        · exact hy z hz3

theorem pairwise_sortByScoreDesc (l : List (PersonIdentity × ℚ)) :
    (sortByScoreDesc l).Pairwise (fun a b => b.2 ≤ a.2) := by
  induction l with
  | nil => simp [sortByScoreDesc]
  | cons x xs ih => exact pairwise_insertByScoreDesc x (sortByScoreDesc xs) ih

/-- Any member of a `find_matches` result pairs a stored identity with its
score, and that score clears the threshold. -/
theorem mem_find_matches (st : IdentityRegistry) (c : Correlators) (m : ℚ)
    (pr : PersonIdentity × ℚ) (h : pr ∈ st.find_matches c m) :
    pr.1 ∈ identityValues st ∧ pr.2 = calculateMatchScore pr.1 c ∧ m ≤ pr.2 := by
  have h1 : pr ∈ (identityValues st).filterMap (fun i =>
      let s := calculateMatchScore i c
      if m ≤ s then some (i, s) else none) :=
    (perm_sortByScoreDesc _).mem_iff.mp h
  rcases List.mem_filterMap.mp h1 with ⟨a, ha, hfa⟩
  by_cases hm : m ≤ calculateMatchScore a c
  · simp only [hm, if_true] at hfa
    cases hfa
    exact ⟨ha, rfl, hm⟩
  · simp [hm] at hfa

-- =========================================================================
-- Claim theorems
-- =========================================================================

/-- C1: for every trigger type and source event, `TriggerRegistry.fire` is
total (never raises) and returns a `success=false` `TriggerResult` with a
distinct message for each failure mode — no spec registered, spec disabled,
no handler — checked in that precedence order; with a registered enabled
spec and a handler, it returns the handler's result. -/
theorem C1_trigger_fire_failure_modes (reg : TriggerRegistry) (t : TriggerType)
    (ev : List (String × String)) (ctx : Option (List (String × String))) :
    (reg.specs t = none →
      reg.fire t ev ctx =
        { trigger_type := t, source_id := sourceEventId ev, target_id := none,
          success := false, message := noSpecMsg t })
  ∧ (∀ spec, reg.specs t = some spec → spec.enabled = false →
      reg.fire t ev ctx =
        { trigger_type := t, source_id := sourceEventId ev, target_id := none,
          success := false, message := disabledMsg t })
  ∧ (∀ spec, reg.specs t = some spec → spec.enabled = true →
      reg.handlers t = none →
      reg.fire t ev ctx =
        { trigger_type := t, source_id := sourceEventId ev, target_id := none,
          success := false, message := noHandlerMsg t })
  ∧ (∀ spec handler, reg.specs t = some spec → spec.enabled = true →
      reg.handlers t = some handler →
      reg.fire t ev ctx = handler ev spec (ctx.getD []))
  ∧ (noSpecMsg t ≠ disabledMsg t ∧ noSpecMsg t ≠ noHandlerMsg t
      ∧ disabledMsg t ≠ noHandlerMsg t) := by
  refine ⟨?_, ?_, ?_, ?_, ?_⟩
  · intro h; simp [TriggerRegistry.fire, h]
  · intro spec h he; simp [TriggerRegistry.fire, h, he]
  · intro spec h he hh; simp [TriggerRegistry.fire, h, he, hh]
  · intro spec handler h he hh; simp [TriggerRegistry.fire, h, he, hh]
  · cases t <;> exact ⟨by decide, by decide, by decide⟩

/-- A registry with the encounter-to-claim spec registered but disabled and
no handlers, for exercising `fire`. -/
def fireDemoSpec : TriggerSpec :=
  { trigger_type := .encounter_to_claim, source_product := .patientsim,
    target_product := .membersim, source_event := "encounter",
    target_event := "claim", enabled := false }

def fireDemoRegistry : TriggerRegistry :=
  { specs := fun t => if t = .encounter_to_claim then some fireDemoSpec else none,
    handlers := fun _ => none }

/-- Witness for C1: on a registry whose only spec is disabled, `fire`
returns the disabled-message failure result. -/
theorem C1_witness :
    TriggerRegistry.fire fireDemoRegistry .encounter_to_claim [("id", "E1")] none =
      { trigger_type := .encounter_to_claim, source_id := "E1", target_id := none,
        success := false, message := disabledMsg .encounter_to_claim } :=
  (C1_trigger_fire_failure_modes fireDemoRegistry .encounter_to_claim
    [("id", "E1")] none).2.1 fireDemoSpec (by simp [fireDemoRegistry]) rfl

/-- An identity having only a correlation id. -/
def bareIdentity (cid : String) : PersonIdentity := { correlation_id := cid }

/-- C2 (amended): for every `PersonIdentity` with a truthy (non-empty)
correlation id, `register` then `link_product_id(cid, membersim, "M-1")`
returns `true`, and `get_by_product_id(membersim, "M-1")` returns the
linked identity, whose correlation id equals `cid`. -/
theorem C2_identity_roundtrip (st : IdentityRegistry) (identity : PersonIdentity)
    (h : identity.correlation_id ≠ "") :
    ((st.register identity).1.link_product_id (st.register identity).2
        .membersim "M-1").2 = true
  ∧ IdentityRegistry.get_by_product_id
      ((st.register identity).1.link_product_id (st.register identity).2
        .membersim "M-1").1 .membersim "M-1"
      = some (setProductField .membersim "M-1" identity)
  ∧ (setProductField .membersim "M-1" identity).correlation_id
      = (st.register identity).2 := by
  have hreg2 : (st.register identity).2 = identity.correlation_id := rfl
  have hget : dictGet (st.register identity).1.identities identity.correlation_id
      = some identity := by
    rw [identities_register]
    exact dictGet_dictInsert_self _ _ _
  refine ⟨?_, ?_, rfl⟩
  · simp [IdentityRegistry.link_product_id, hreg2, hget]
  · simp only [IdentityRegistry.link_product_id, hreg2, hget]
    simp only [IdentityRegistry.get_by_product_id, IdentityRegistry.setIndex]
    simp [dictGet_dictInsert_self, h, setProductField]

/-- Witness for C2: the round trip on a concrete identity. -/
theorem C2_witness :
    ((IdentityRegistry.register {} (bareIdentity "c1")).1.link_product_id
        (IdentityRegistry.register {} (bareIdentity "c1")).2 .membersim "M-1").2 = true
  ∧ IdentityRegistry.get_by_product_id
      ((IdentityRegistry.register {} (bareIdentity "c1")).1.link_product_id
        (IdentityRegistry.register {} (bareIdentity "c1")).2 .membersim "M-1").1
      .membersim "M-1"
      = some (setProductField .membersim "M-1" (bareIdentity "c1"))
  ∧ (setProductField .membersim "M-1" (bareIdentity "c1")).correlation_id
      = (IdentityRegistry.register {} (bareIdentity "c1")).2 :=
  C2_identity_roundtrip {} (bareIdentity "c1") (by decide)

/-- Counterexample for C2 as stated: with the (Python-falsy) empty-string
correlation id, `link_product_id` still returns `true` but
`get_by_product_id` returns `None` rather than the identity. -/
theorem C2_counterexample :
    ((IdentityRegistry.register {} (bareIdentity "")).1.link_product_id
        (IdentityRegistry.register {} (bareIdentity "")).2 .membersim "M-1").2 = true
  ∧ IdentityRegistry.get_by_product_id
      ((IdentityRegistry.register {} (bareIdentity "")).1.link_product_id
        (IdentityRegistry.register {} (bareIdentity "")).2 .membersim "M-1").1
      .membersim "M-1" = none :=
  ⟨rfl, rfl⟩

/-- C3: `find_matches` scores each stored identity as matched weight over
total weight, counting only correlators present on both sides (absent ones
contribute to neither side), and returns exactly the identities whose score
clears `min_confidence`, in descending score order. -/
theorem C3_find_matches_characterization (st : IdentityRegistry) (c : Correlators)
    (min_confidence : ℚ) :
    (∀ i, calculateMatchScore i c = specMatchScore c i)
  ∧ List.Perm (st.find_matches c min_confidence)
      ((identityValues st).filterMap (fun i =>
        if min_confidence ≤ specMatchScore c i
        then some (i, specMatchScore c i) else none))
  ∧ (st.find_matches c min_confidence).Pairwise (fun a b => b.2 ≤ a.2) := by
  refine ⟨fun i => calculateMatchScore_eq_spec i c, ?_, ?_⟩
  · have hfe : (fun i => let s := calculateMatchScore i c
        if min_confidence ≤ s then some (i, s) else none)
        = (fun i => if min_confidence ≤ specMatchScore c i
            then some (i, specMatchScore c i) else none) := by
      funext i
      simp only [calculateMatchScore_eq_spec i c]
    unfold IdentityRegistry.find_matches
    rw [hfe]
    exact perm_sortByScoreDesc _
  · exact pairwise_sortByScoreDesc _

/-- A query carrying only a hashed-id correlator. -/
def hashOnlyCorrelators (h : String) : Correlators := { ssn_hash := some h }

/-- C4: the correlator weights are strictly ordered
`hashed id > DOB > name > gender`; a query supplying only a hashed-id
correlator scores exactly `1` against an identity with the same hash, and an
identity with a different (or missing) hash is excluded from `find_matches`
at the default minimum confidence. -/
theorem C4_weight_ordering_hash_dominance (st : IdentityRegistry) (h : String)
    (i : PersonIdentity) :
    (wGender < wName ∧ wName < wDOB ∧ wDOB < wSSN)
  ∧ (h ≠ "" → i.ssn_hash = some h →
      calculateMatchScore i (hashOnlyCorrelators h) = 1)
  ∧ (h ≠ "" → i.ssn_hash ≠ some h → ∀ s : ℚ,
      (i, s) ∉ st.find_matches (hashOnlyCorrelators h) defaultMinConfidence) := by
  refine ⟨by norm_num [wGender, wName, wDOB, wSSN], ?_, ?_⟩
  · intro hne hh
    simp [calculateMatchScore, hashOnlyCorrelators, pyTruthy, hh, hne, wSSN]
  · intro hne hdiff s hmem
    have hz : calculateMatchScore i (hashOnlyCorrelators h) = 0 := by
      cases hσ : i.ssn_hash with
      | none => simp [calculateMatchScore, hashOnlyCorrelators, pyTruthy, hσ]
      | some hs =>
          by_cases hse : hs = ""
          · simp [calculateMatchScore, hashOnlyCorrelators, pyTruthy, hσ, hse]
          · have hne2 : ¬ (h = hs) := by
              intro hcontra
              exact hdiff (by rw [hσ, hcontra])
            simp [calculateMatchScore, hashOnlyCorrelators, pyTruthy, hσ, hse,
              hne, hne2, wSSN]
    rcases mem_find_matches st (hashOnlyCorrelators h) defaultMinConfidence
      (i, s) hmem with ⟨-, hs2, hm⟩
    rw [hs2, hz] at hm
    norm_num [defaultMinConfidence] at hm

/-- Demo identities for the C4 witness. -/
def idWithHashA : PersonIdentity := { correlation_id := "c-a", ssn_hash := some "AAAA" }

def idWithHashB : PersonIdentity := { correlation_id := "c-b", ssn_hash := some "BBBB" }

def hashDemoRegistry : IdentityRegistry :=
  ((IdentityRegistry.register {} idWithHashA).1.register idWithHashB).1

/-- Witness for C4: hash-only query scores `1` on the equal-hash identity
and the different-hash identity is excluded at the default confidence. -/
theorem C4_witness :
    (wGender < wName ∧ wName < wDOB ∧ wDOB < wSSN)
  ∧ calculateMatchScore idWithHashA (hashOnlyCorrelators "AAAA") = 1
  ∧ (idWithHashB, (0 : ℚ)) ∉
      hashDemoRegistry.find_matches (hashOnlyCorrelators "AAAA") defaultMinConfidence :=
  ⟨(C4_weight_ordering_hash_dominance hashDemoRegistry "AAAA" idWithHashA).1,
   (C4_weight_ordering_hash_dominance hashDemoRegistry "AAAA" idWithHashA).2.1
      (by decide) rfl,
   (C4_weight_ordering_hash_dominance hashDemoRegistry "AAAA" idWithHashB).2.2
      (by decide) (by decide) 0⟩

/-- C6 (amended): `validate` is total, never appends to `errors` (so
`passed` is always `true`), and emits exactly one warning per entity whose
truthy (non-empty) extracted id is missing from the Identity Registry;
entities whose extracted id is absent or the falsy empty string are skipped
silently, and orphans never appear in `errors`. -/
theorem C6_validate_orphans_warn_only (st : IdentityRegistry)
    (entities : List (ProductType × List Entity)) :
    validate st entities = (true, [], specOrphanWarnings st entities) := by
  simp only [validate, specOrphanWarnings]
  have hfun : ∀ (pe : ProductType × List Entity) (entity : Entity),
      (match get_entity_id entity pe.1 with
        | none => none
        | some entity_id =>
            if entity_id = "" then none
            else
              match IdentityRegistry.get_by_product_id st pe.1 entity_id with
              | some _ => none
              | none => some (orphanWarning entity_id pe.1))
      = (match get_entity_id entity pe.1 with
        | none => none
        | some eid =>
            if eid ≠ "" ∧ IdentityRegistry.get_by_product_id st pe.1 eid = none
            then some (orphanWarning eid pe.1) else none) := by
    intro pe entity
    cases hge : get_entity_id entity pe.1 with
    | none => rfl
    | some eid =>
        by_cases he : eid = "" <;>
          cases hgb : IdentityRegistry.get_by_product_id st pe.1 eid <;>
            simp [he, hgb]
  simp only [hfun]
  rfl

/-- Counterexample for C6 as stated: a dict entity whose `id` field is the
empty string has extracted id `""`, which is absent from the registry, yet
`validate` emits no warning for it (the falsy id is skipped). -/
theorem C6_counterexample :
    get_entity_id [("id", "")] ProductType.patientsim = some ""
  ∧ IdentityRegistry.get_by_product_id {} ProductType.patientsim "" = none
  ∧ validate {} [(ProductType.patientsim, [[("id", "")]])] = (true, [], []) :=
  ⟨rfl, rfl, rfl⟩

/-- C7: `link_product_id` on an unregistered correlation id returns `false`
and leaves the registry completely unchanged — no identity stored or
modified, no product-index entry added. -/
theorem C7_link_unknown_cid_soft_failure (st : IdentityRegistry) (cid : String)
    (p : ProductType) (pid : String)
    (h : dictGet st.identities cid = none) :
    st.link_product_id cid p pid = (st, false) := by
  simp [IdentityRegistry.link_product_id, h]

/-- Witness for C7: linking against an empty registry fails softly. -/
theorem C7_witness :
    IdentityRegistry.link_product_id {} "c-unknown" .membersim "M-1"
      = ({}, false) :=
  C7_link_unknown_cid_soft_failure {} "c-unknown" .membersim "M-1" rfl

/-- Counterexample for C8 as stated: with the non-positive weight list
`[("a", 0)]`, `_weighted_choice` returns the first option instead of
failing — no `ConfigurationError` is raised (none exists in the code). -/
theorem C8_counterexample :
    ((0 : ℚ) ≤ 0) ∧ weighted_choice [("a", (0 : ℚ))] (1/2) = some "a" :=
  ⟨le_refl 0, by norm_num [weighted_choice, weightedChoiceTotal, weightedChoiceLoop]⟩

/-- C8 (amended): `_weighted_choice` performs no validation: an empty
option list falls through the scan and raises `IndexError` on the
`options[-1]` fallback (modelled as `none`, not a `ConfigurationError`),
while any non-empty option list — including all-non-positive weights —
always returns one of the options. -/
theorem C8_weighted_choice_no_validation :
    (∀ r0 : ℚ, weighted_choice [] r0 = none)
  ∧ (∀ (options : List (String × ℚ)) (r0 : ℚ), options ≠ [] →
      (weighted_choice options r0).isSome = true) := by
  constructor
  · intro r0; rfl
  · intro options r0 hne
    unfold weighted_choice
    cases hl : weightedChoiceLoop (r0 * weightedChoiceTotal options) 0 options with
    | some v => simp [hl]
    | none => simp [hl, Option.isSome_map, List.getLast?_isSome, hne]

/-- Witness for C8: a single-option list with a negative weight still
returns a value. -/
theorem C8_witness :
    (weighted_choice [("b", (-1 : ℚ))] (1/3)).isSome = true :=
  C8_weighted_choice_no_validation.2 [("b", (-1 : ℚ))] (1/3) (by decide)

theorem length_dictInsert_fresh {α : Type} (l : List (String × α)) (k : String)
    (v : α) (h : dictGet l k = none) :
    (dictInsert l k v).length = l.length + 1 := by
  induction l with
  | nil => rfl
  | cons hd tl ih =>
      by_cases h1 : hd.1 = k
      · simp [dictGet, h1] at h
      · simp only [dictGet, h1, if_false] at h
        simp [dictInsert, h1, ih h]

/-- The created identity's correlation id is the fresh uuid drawn from the
coordinator's counter. -/
theorem create_linked_identity_correlation_id (sync : CrossDomainSync)
    (products : List ProductType) (demo : Demographics) (seed : Option Int)
    (e : Nat) :
    (sync.create_linked_identity products demo seed e).2.correlation_id
      = uuidStr sync.uuidCounter := by
  simp only [CrossDomainSync.create_linked_identity]
  by_cases h1 : ProductType.patientsim ∈ products <;>
    by_cases h2 : ProductType.membersim ∈ products <;>
      by_cases h3 : ProductType.rxmembersim ∈ products <;>
        by_cases h4 : ProductType.trialsim ∈ products <;>
          simp [h1, h2, h3, h4]

/-- C5 (amended): when the effective seeds `seed or self.seed` of two
`create_linked_identity` calls agree and are not `None`, the calls generate
identical per-product ids (whatever the demographics, registry contents,
uuid counters, and entropy); and each call registers exactly one identity —
the registry dict afterwards is the dict before plus the one new binding,
its length one greater when the fresh uuid is unused. -/
theorem C5_linked_identity_determinism (sync1 sync2 : CrossDomainSync)
    (products : List ProductType) (demo1 demo2 : Demographics)
    (seed1 seed2 : Option Int) (e1 e2 : Nat)
    (hs : pyOrSeed seed1 sync1.seed = pyOrSeed seed2 sync2.seed)
    (hn : pyOrSeed seed1 sync1.seed ≠ none) :
    ((sync1.create_linked_identity products demo1 seed1 e1).2.patient_id
        = (sync2.create_linked_identity products demo2 seed2 e2).2.patient_id
      ∧ (sync1.create_linked_identity products demo1 seed1 e1).2.member_id
        = (sync2.create_linked_identity products demo2 seed2 e2).2.member_id
      ∧ (sync1.create_linked_identity products demo1 seed1 e1).2.rx_member_id
        = (sync2.create_linked_identity products demo2 seed2 e2).2.rx_member_id
      ∧ (sync1.create_linked_identity products demo1 seed1 e1).2.subject_id
        = (sync2.create_linked_identity products demo2 seed2 e2).2.subject_id)
  ∧ (sync1.create_linked_identity products demo1 seed1 e1).1.identity_registry.identities
      = dictInsert sync1.identity_registry.identities (uuidStr sync1.uuidCounter)
          (sync1.create_linked_identity products demo1 seed1 e1).2
  ∧ (dictGet sync1.identity_registry.identities (uuidStr sync1.uuidCounter) = none →
      (sync1.create_linked_identity products demo1 seed1
          e1).1.identity_registry.identities.length
        = sync1.identity_registry.identities.length + 1) := by
  have hkey0 : (sync1.create_linked_identity products demo1 seed1
      e1).1.identity_registry.identities
      = dictInsert sync1.identity_registry.identities
          (sync1.create_linked_identity products demo1 seed1 e1).2.correlation_id
          (sync1.create_linked_identity products demo1 seed1 e1).2 := by
    conv_lhs => rw [CrossDomainSync.create_linked_identity]
    rw [identities_register]
    rfl
  have hkey : (sync1.create_linked_identity products demo1 seed1
      e1).1.identity_registry.identities
      = dictInsert sync1.identity_registry.identities (uuidStr sync1.uuidCounter)
          (sync1.create_linked_identity products demo1 seed1 e1).2 := by
    rw [hkey0, create_linked_identity_correlation_id]
  refine ⟨?_, hkey, ?_⟩
  · cases hseq1 : pyOrSeed seed1 sync1.seed with
    | none => exact absurd hseq1 hn
    | some s =>
        have hseq2 : pyOrSeed seed2 sync2.seed = some s := hs.symm.trans hseq1
        simp only [CrossDomainSync.create_linked_identity, hseq1, hseq2, pySeedInit]
        by_cases h1 : ProductType.patientsim ∈ products <;>
          by_cases h2 : ProductType.membersim ∈ products <;>
            by_cases h3 : ProductType.rxmembersim ∈ products <;>
              by_cases h4 : ProductType.trialsim ∈ products <;>
                simp [h1, h2, h3, h4]
  · intro hfresh
    rw [hkey]
    exact length_dictInsert_fresh _ _ _ hfresh

/-- Witness for C5 (amended): the same provided seed on two coordinators
with different entropies yields the same product ids, and the registration
adds one binding. -/
theorem C5_witness :
    ((CrossDomainSync.create_linked_identity { seed := none }
          [ProductType.patientsim, ProductType.membersim] {} (some 7) 0).2.patient_id
        = (CrossDomainSync.create_linked_identity { seed := none }
          [ProductType.patientsim, ProductType.membersim] {} (some 7) 99).2.patient_id
      ∧ (CrossDomainSync.create_linked_identity { seed := none }
          [ProductType.patientsim, ProductType.membersim] {} (some 7) 0).2.member_id
        = (CrossDomainSync.create_linked_identity { seed := none }
          [ProductType.patientsim, ProductType.membersim] {} (some 7) 99).2.member_id
      ∧ (CrossDomainSync.create_linked_identity { seed := none }
          [ProductType.patientsim, ProductType.membersim] {} (some 7) 0).2.rx_member_id
        = (CrossDomainSync.create_linked_identity { seed := none }
          [ProductType.patientsim, ProductType.membersim] {} (some 7) 99).2.rx_member_id
      ∧ (CrossDomainSync.create_linked_identity { seed := none }
          [ProductType.patientsim, ProductType.membersim] {} (some 7) 0).2.subject_id
        = (CrossDomainSync.create_linked_identity { seed := none }
          [ProductType.patientsim, ProductType.membersim] {} (some 7) 99).2.subject_id)
  ∧ (CrossDomainSync.create_linked_identity { seed := none }
        [ProductType.patientsim, ProductType.membersim] {} (some 7)
        0).1.identity_registry.identities
      = dictInsert ({} : CrossDomainSync).identity_registry.identities (uuidStr 0)
          (CrossDomainSync.create_linked_identity { seed := none }
            [ProductType.patientsim, ProductType.membersim] {} (some 7) 0).2
  ∧ (dictGet ({} : CrossDomainSync).identity_registry.identities (uuidStr 0) = none →
      (CrossDomainSync.create_linked_identity { seed := none }
          [ProductType.patientsim, ProductType.membersim] {} (some 7)
          0).1.identity_registry.identities.length
        = ({} : CrossDomainSync).identity_registry.identities.length + 1) :=
  C5_linked_identity_determinism { seed := none } { seed := none }
    [ProductType.patientsim, ProductType.membersim] {} {} (some 7) (some 7) 0 99
    rfl (by decide)

/-- Counterexample for C5 as stated: two calls with the same seed argument
`0` (Python-falsy, so `seed or self.seed` falls back to the coordinator's
constructor seed) generate different patient ids on coordinators seeded
with `1` and `2` — the id derivation is not a function of the seed
argument alone. -/
theorem C5_counterexample :
    (CrossDomainSync.create_linked_identity { seed := some 1 }
        [ProductType.patientsim] {} (some 0) 5).2.patient_id
      ≠ (CrossDomainSync.create_linked_identity { seed := some 2 }
        [ProductType.patientsim] {} (some 0) 5).2.patient_id := by
  decide

/-- C9: two Timeline builds with identical (seed, journey, entity, start
date) produce identical Timelines — the same event dates, statuses, and
ordering on every rebuild. -/
theorem C9_build_timeline_deterministic (rootSeed : Nat)
    (journey : JourneySpecification) (entity : JourneyEntity) (start_date : Nat)
    (t1 t2 : Timeline)
    (h1 : build_timeline rootSeed journey entity start_date = .ok t1)
    (h2 : build_timeline rootSeed journey entity start_date = .ok t2) :
    t1.events.map (fun ev => (ev.event_id, ev.date, ev.status))
      = t2.events.map (fun ev => (ev.event_id, ev.date, ev.status))
  ∧ t1 = t2 := by
  rw [h1] at h2
  cases h2
  exact ⟨rfl, rfl⟩

/-- A three-event demo journey: `A` at day 0, `B` 14 days after `A`, `C` a
sampled 5-10 days after `A`. -/
def journeyABC : JourneySpecification :=
  { id := "J1", name := "demo-journey",
    events := [
      { id := "A", name := "intake", event_type := "visit", product := .patientsim,
        delay := .fixedDays 0 },
      { id := "B", name := "followup", event_type := "visit", product := .patientsim,
        delay := .fixedDays 14, depends_on := some "A" },
      { id := "C", name := "lab", event_type := "lab", product := .patientsim,
        delay := .uniformWindow 5 10, depends_on := some "A" } ] }

def entityX : JourneyEntity := { entity_id := "patient-1" }

/-- The timeline built for `journeyABC`, `entityX`, seed 42, start day 0. -/
def timelineABC : Timeline :=
  { entity_id := "patient-1", entity_type := "patient", journey_id := "J1",
    start_date := 0,
    events := [
      { event_id := "A", event_type := "visit", date := 0, status := .pending },
      { event_id := "C", event_type := "lab", date := 6, status := .pending },
      { event_id := "B", event_type := "visit", date := 14, status := .pending } ] }

deriving instance DecidableEq for Except

set_option maxRecDepth 10000 in
/-- Witness for C9: rebuilding `journeyABC` with seed 42 yields the same
concrete timeline both times. -/
theorem C9_witness :
    timelineABC.events.map (fun ev => (ev.event_id, ev.date, ev.status))
      = timelineABC.events.map (fun ev => (ev.event_id, ev.date, ev.status))
  ∧ timelineABC = timelineABC :=
  C9_build_timeline_deterministic 42 journeyABC entityX 0 timelineABC timelineABC
    (by decide) (by decide)

-- =========================================================================
-- C10: persistence of product-index entries
-- =========================================================================

/-- The mutating registry operations. -/
inductive RegOp
  | reg (identity : PersonIdentity)
  | link (correlation_id : String) (p : ProductType) (product_id : String)

def applyOp (st : IdentityRegistry) : RegOp → IdentityRegistry
  | .reg i => (st.register i).1
  | .link c p x => (st.link_product_id c p x).1

def applyOps (st : IdentityRegistry) (ops : List RegOp) : IdentityRegistry :=
  ops.foldl applyOp st

/-- The product-id field that `register` indexes for a product (none for
networksim / populationsim, which `register` never indexes). -/
def registerField (p : ProductType) (i : PersonIdentity) : Option String :=
  match p with
  | .patientsim => i.patient_id
  | .membersim => i.member_id
  | .rxmembersim => i.rx_member_id
  | .trialsim => i.subject_id
  | .networksim => none
  | .populationsim => none

/-- Whether an operation writes the product-index entry `(p, x)` — i.e.
reuses `x` as a product id for `p`. -/
def writesIndexEntry (op : RegOp) (p : ProductType) (x : String) : Bool :=
  match op with
  | .reg i => registerField p i == some x && !(x == "")
  | .link _ p1 x1 => p1 == p && x1 == x

/-- The registry invariant: every stored identity sits under its own
correlation id (established by `register` and preserved by every
operation). -/
def registryWF (st : IdentityRegistry) : Bool :=
  st.identities.all (fun kv => kv.2.correlation_id == kv.1)

theorem registryWF_get {st : IdentityRegistry} (h : registryWF st = true)
    {cid : String} {i : PersonIdentity}
    (hg : dictGet st.identities cid = some i) : i.correlation_id = cid := by
  have hm := dictGet_mem hg
  have h2 := List.all_eq_true.mp h _ hm
  simpa using h2

theorem all_dictInsert {α : Type} (P : String × α → Bool) (l : List (String × α))
    (k : String) (v : α) (h : l.all P = true) (hv : P (k, v) = true) :
    (dictInsert l k v).all P = true := by
  induction l with
  | nil => simp [dictInsert, hv]
  | cons hd tl ih =>
      simp only [List.all_cons, Bool.and_eq_true] at h
      by_cases hk : hd.1 = k <;>
        simp [dictInsert, hk, hv, h.1, h.2, ih h.2]

theorem correlation_id_setProductField (p : ProductType) (x : String)
    (i : PersonIdentity) :
    (setProductField p x i).correlation_id = i.correlation_id := by
  cases p <;> rfl

theorem registryWF_applyOp (st : IdentityRegistry) (op : RegOp)
    (h : registryWF st = true) : registryWF (applyOp st op) = true := by
  cases op with
  | reg i =>
      show registryWF (st.register i).1 = true
      unfold registryWF
      rw [identities_register]
      exact all_dictInsert _ _ _ _ h (by simp)
  | link c p x =>
      show registryWF (st.link_product_id c p x).1 = true
      unfold IdentityRegistry.link_product_id
      cases hg : dictGet st.identities c with
      | none => simpa [registryWF] using h
      | some identity =>
          have hcorr : identity.correlation_id = c := registryWF_get h hg
          simp only [registryWF, IdentityRegistry.setIndex]
          exact all_dictInsert _ _ _ _ h
            (by simp [correlation_id_setProductField, hcorr])

theorem dictGet_indexes_indexIfTruthy (st : IdentityRegistry) (p1 : ProductType)
    (pid : Option String) (c : String) (p : ProductType) (x : String)
    (h : ¬(p1 = p ∧ pid = some x ∧ x ≠ "")) :
    dictGet ((indexIfTruthy st p1 pid c).indexes p) x = dictGet (st.indexes p) x := by
  cases pid with
  | none => rfl
  | some s =>
      by_cases hs : s = ""
      · simp [indexIfTruthy, hs]
      · simp only [indexIfTruthy, hs, if_false, IdentityRegistry.setIndex]
        by_cases hp : p = p1
        · subst hp
          simp only [if_pos rfl]
          have hsx : s ≠ x := by
            intro he
            subst he
            exact h ⟨rfl, rfl, hs⟩
          exact dictGet_dictInsert_ne _ _ _ _ hsx
        · simp [hp]

theorem dictGet_indexes_register (st : IdentityRegistry) (i : PersonIdentity)
    (p : ProductType) (x : String)
    (h : ¬(registerField p i = some x ∧ x ≠ "")) :
    dictGet ((st.register i).1.indexes p) x = dictGet (st.indexes p) x := by
  have c1 : ¬(ProductType.patientsim = p ∧ i.patient_id = some x ∧ x ≠ "") := by
    rintro ⟨hp, hf, hx⟩; subst hp; exact h ⟨hf, hx⟩
  have c2 : ¬(ProductType.membersim = p ∧ i.member_id = some x ∧ x ≠ "") := by
    rintro ⟨hp, hf, hx⟩; subst hp; exact h ⟨hf, hx⟩
  have c3 : ¬(ProductType.rxmembersim = p ∧ i.rx_member_id = some x ∧ x ≠ "") := by
    rintro ⟨hp, hf, hx⟩; subst hp; exact h ⟨hf, hx⟩
  have c4 : ¬(ProductType.trialsim = p ∧ i.subject_id = some x ∧ x ≠ "") := by
    rintro ⟨hp, hf, hx⟩; subst hp; exact h ⟨hf, hx⟩
  simp only [IdentityRegistry.register]
  rw [dictGet_indexes_indexIfTruthy _ _ _ _ _ _ c4,
      dictGet_indexes_indexIfTruthy _ _ _ _ _ _ c3,
      dictGet_indexes_indexIfTruthy _ _ _ _ _ _ c2,
      dictGet_indexes_indexIfTruthy _ _ _ _ _ _ c1]

theorem dictGet_indexes_link (st : IdentityRegistry) (c1 : String)
    (p1 : ProductType) (x1 : String) (p : ProductType) (x : String)
    (h : ¬(p1 = p ∧ x1 = x)) :
    dictGet ((st.link_product_id c1 p1 x1).1.indexes p) x
      = dictGet (st.indexes p) x := by
  unfold IdentityRegistry.link_product_id
  cases hg : dictGet st.identities c1 with
  | none => simp [hg]
  | some identity =>
      simp only [hg, IdentityRegistry.setIndex]
      by_cases hp : p = p1
      · subst hp
        simp only [if_pos rfl]
        have hx : x1 ≠ x := fun he => h ⟨rfl, he⟩
        exact dictGet_dictInsert_ne _ _ _ _ hx
      · simp [hp]

theorem identities_key_applyOp (st : IdentityRegistry) (op : RegOp) (c : String)
    (h : (dictGet st.identities c).isSome = true) :
    (dictGet (applyOp st op).identities c).isSome = true := by
  cases op with
  | reg i =>
      show (dictGet (st.register i).1.identities c).isSome = true
      rw [identities_register]
      by_cases hk : i.correlation_id = c
      · subst hk; simp [dictGet_dictInsert_self]
      · rw [dictGet_dictInsert_ne _ _ _ _ hk]; exact h
  | link c1 p1 x1 =>
      show (dictGet (st.link_product_id c1 p1 x1).1.identities c).isSome = true
      unfold IdentityRegistry.link_product_id
      cases hg : dictGet st.identities c1 with
      | none => simpa [hg] using h
      | some identity =>
          simp only [hg, IdentityRegistry.setIndex]
          by_cases hk : c1 = c
          · subst hk; simp [dictGet_dictInsert_self]
          · have h2 : (dictGet (dictInsert st.identities c1
                (setProductField p1 x1 identity)) c).isSome = true := by
              rw [dictGet_dictInsert_ne _ _ _ _ hk]; exact h
            exact h2

theorem indexes_entry_applyOp (st : IdentityRegistry) (op : RegOp)
    (p : ProductType) (x : String) (c : String)
    (hw : writesIndexEntry op p x = false)
    (h : dictGet (st.indexes p) x = some c) :
    dictGet ((applyOp st op).indexes p) x = some c := by
  cases op with
  | reg i =>
      have hcond : ¬(registerField p i = some x ∧ x ≠ "") := by
        rintro ⟨hf, hx⟩
        simp [writesIndexEntry, hf, hx] at hw
      rw [show applyOp st (.reg i) = (st.register i).1 from rfl]
      rw [dictGet_indexes_register _ _ _ _ hcond]
      exact h
  | link c1 p1 x1 =>
      have hcond : ¬(p1 = p ∧ x1 = x) := by
        rintro ⟨hp, hx⟩
        simp [writesIndexEntry, hp, hx] at hw
      rw [show applyOp st (.link c1 p1 x1) = (st.link_product_id c1 p1 x1).1 from rfl]
      rw [dictGet_indexes_link _ _ _ _ _ _ hcond]
      exact h

theorem C10_aux (p : ProductType) (x : String) (c : String) (ops : List RegOp) :
    ∀ st : IdentityRegistry, registryWF st = true →
    dictGet (st.indexes p) x = some c →
    (dictGet st.identities c).isSome = true →
    (∀ op ∈ ops, writesIndexEntry op p x = false) →
    registryWF (applyOps st ops) = true
    ∧ dictGet ((applyOps st ops).indexes p) x = some c
    ∧ (dictGet (applyOps st ops).identities c).isSome = true := by
  induction ops with
  | nil => intro st h1 h2 h3 _; exact ⟨h1, h2, h3⟩
  | cons op rest ih =>
      intro st h1 h2 h3 hops
      have hop : writesIndexEntry op p x = false := hops op (List.mem_cons_self _ _)
      have hrest : ∀ op1 ∈ rest, writesIndexEntry op1 p x = false :=
        fun op1 hm => hops op1 (List.mem_cons_of_mem _ hm)
      have hstep := ih (applyOp st op)
        (registryWF_applyOp st op h1)
        (indexes_entry_applyOp st op p x c hop h2)
        (identities_key_applyOp st op c h3)
        hrest
      simpa [applyOps] using hstep

/-- C10: product-index entries are only added or overwritten, never
deleted — once `get_by_product_id(p, x)` resolves to an identity with
correlation id `cid`, it keeps resolving to an identity with that same
correlation id after any sequence of `register` / `link_product_id` calls
that do not reuse `x` as a product id for `p`. -/
theorem C10_index_entries_persist (st : IdentityRegistry) (p : ProductType)
    (x : String) (i0 : PersonIdentity) (ops : List RegOp)
    (hwf : registryWF st = true)
    (h0 : st.get_by_product_id p x = some i0)
    (hops : ∀ op ∈ ops, writesIndexEntry op p x = false) :
    ((applyOps st ops).get_by_product_id p x).map (fun i => i.correlation_id)
      = some i0.correlation_id := by
  unfold IdentityRegistry.get_by_product_id at h0
  cases hidx : dictGet (st.indexes p) x with
  | none => rw [hidx] at h0; cases h0
  | some c =>
      rw [hidx] at h0
      have h0' : (if c = "" then none else dictGet st.identities c) = some i0 := h0
      by_cases hc : c = ""
      · rw [if_pos hc] at h0'; cases h0'
      · rw [if_neg hc] at h0'
        have hi0 : i0.correlation_id = c := registryWF_get hwf h0'
        have hsome : (dictGet st.identities c).isSome = true := by
          rw [h0']; rfl
        rcases C10_aux p x c ops st hwf hidx hsome hops with ⟨hwf2, hidx2, hsome2⟩
        cases hfin : dictGet (applyOps st ops).identities c with
        | none => rw [hfin] at hsome2; cases hsome2
        | some i1 =>
            have hi1 : i1.correlation_id = c := registryWF_get hwf2 hfin
            unfold IdentityRegistry.get_by_product_id
            rw [hidx2]
            show Option.map (fun i => i.correlation_id)
              (if c = "" then none else dictGet (applyOps st ops).identities c)
              = some i0.correlation_id
            rw [if_neg hc, hfin]
            simp [hi1, hi0]

/-- Demo identity with a linked patient id, for the C10 witness. -/
def idWithPatient : PersonIdentity :=
  { correlation_id := "c1", patient_id := some "P1" }

/-- Witness for C10: after linking a second patient id `P2` to the same
identity, the previously linked `P1` still resolves to correlation id
`c1`. -/
theorem C10_witness :
    ((applyOps (IdentityRegistry.register {} idWithPatient).1
        [RegOp.link "c1" .patientsim "P2"]).get_by_product_id
        .patientsim "P1").map (fun i => i.correlation_id)
      = some idWithPatient.correlation_id :=
  C10_index_entries_persist (IdentityRegistry.register {} idWithPatient).1
    .patientsim "P1" idWithPatient [RegOp.link "c1" .patientsim "P2"]
    (by decide) (by decide)
    (by intro op hm; simp at hm; subst hm; decide)

end HealthSim
